import Mathlib

/-!
Verification of the aquarium-monitor telemetry pipeline.

This file gives a shallow embedding of the core of the repository:

* `collector.py`: the DPS catalog, the scale-and-encode step of
  `write_to_victoria`, and the timing skeleton of the `main` collection loop;
* `app.py`: the step selection and result handling of `query_victoria`,
  the bulk export `get_all_readings_from_vm`, and the dynamic safe-range
  computation of `api_ranges`.

Measurement values are modelled as rationals (`ℚ`), raw device readings as
integers, and Python's `round` builtin as exact round-half-to-even on `ℚ`.
-/

/-- Model of Python's builtin `round(x)` (round half to even, "banker's
rounding"), on exact rationals. -/
def pyround (q : ℚ) : ℤ :=
  if q - ⌊q⌋ < 1/2 then ⌊q⌋
  else if 1/2 < q - ⌊q⌋ then ⌊q⌋ + 1
  else if Even ⌊q⌋ then ⌊q⌋ else ⌊q⌋ + 1

theorem pyround_ge (q : ℚ) : q - 1/2 ≤ (pyround q : ℚ) := by
  unfold pyround
  have h1 : (⌊q⌋ : ℚ) ≤ q := Int.floor_le q
  have h2 : q < ⌊q⌋ + 1 := Int.lt_floor_add_one q
  split_ifs with ha hb hc <;> push_cast <;> linarith

theorem pyround_le (q : ℚ) : (pyround q : ℚ) ≤ q + 1/2 := by
  unfold pyround
  have h1 : (⌊q⌋ : ℚ) ≤ q := Int.floor_le q
  have h2 : q < ⌊q⌋ + 1 := Int.lt_floor_add_one q
  split_ifs with ha hb hc <;> push_cast <;> linarith

theorem le_pyround_of_le (n : ℤ) (q : ℚ) (h : (n : ℚ) ≤ q) : n ≤ pyround q := by
  have h1 := pyround_ge q
  have h2 : ((n - 1 : ℤ) : ℚ) < (pyround q : ℚ) := by push_cast; linarith
  have h3 : (n - 1 : ℤ) < pyround q := by exact_mod_cast h2
  omega

theorem pyround_le_of_le (n : ℤ) (q : ℚ) (h : q ≤ (n : ℚ)) : pyround q ≤ n := by
  have h1 := pyround_le q
  have h2 : (pyround q : ℚ) < ((n + 1 : ℤ) : ℚ) := by push_cast; linarith
  have h3 : pyround q < (n + 1 : ℤ) := by exact_mod_cast h2
  omega

/-! ## Collector (`collector.py`) -/

/-- `INTERVAL = 300` from `collector.py`: the fixed collection interval. -/
def INTERVAL : ℕ := 300

/-- `DPS_MAP` from `collector.py`: channel id, metric name, scale factor. -/
def DPS_MAP : List (String × String × ℚ) :=
  [("8", "aquarium_temperature_celsius", 0.1),
   ("106", "aquarium_ph", 0.01),
   ("111", "aquarium_tds_ppm", 1),
   ("116", "aquarium_ec_uscm", 1),
   ("121", "aquarium_salinity_ppm", 1),
   ("126", "aquarium_specific_gravity", 0.001),
   ("131", "aquarium_orp_mv", 1)]

/-- One exposition line pushed to the store: metric name, scaled value and
millisecond timestamp, before string rendering. -/
structure ExpoLine where
  metric : String
  value : ℚ
  timestamp_ms : ℕ
deriving DecidableEq

/-- The line contributed by one catalog entry `e` for the raw reading `dps`:
`some` line when the channel id is present, `none` otherwise. -/
def expoOf (dps : String → Option ℤ) (timestamp_ms : ℕ) (e : String × String × ℚ) :
    Option ExpoLine :=
  (dps e.1).map (fun raw => ⟨e.2.1, (raw : ℚ) * e.2.2, timestamp_ms⟩)

/-- The scale-and-encode step of `write_to_victoria`: iterate `DPS_MAP` and
emit a line for every channel id present in the reading. -/
def writeLines (dps : String → Option ℤ) (timestamp_ms : ℕ) : List ExpoLine :=
  DPS_MAP.filterMap (expoOf dps timestamp_ms)

/-- String rendering of one exposition line,
`metric_name{sensor="seafront_8in1"} <value> <timestamp_ms>`, parameterized by
the printer used for the float value. -/
def renderLine (fmtValue : ℚ → String) (l : ExpoLine) : String :=
  l.metric ++ "\x7bsensor=\"seafront_8in1\"\x7d " ++ fmtValue l.value ++ " " ++
    toString l.timestamp_ms

/-- The payload lines written by `write_to_victoria`, rendered as strings. -/
def writePayloadLines (fmtValue : ℚ → String) (dps : String → Option ℤ)
    (timestamp_ms : ℕ) : List String :=
  (writeLines dps timestamp_ms).map (renderLine fmtValue)

/-- Timing skeleton of the `main` loop of `collector.py`:
`while True: collect_once(); time.sleep(INTERVAL)`.  `dur n` is the wall-clock
duration of the `n`-th `collect_once` call; `cycleStart dur n` is the time at
which the `n`-th cycle begins, with the process starting at time `0`. -/
def cycleStart (dur : ℕ → ℕ) : ℕ → ℕ
  | 0 => 0
  | n + 1 => cycleStart dur n + dur n + INTERVAL

/-! ## Query planner (`query_victoria` in `app.py`) -/

/-- Step selection of `query_victoria`: aggregation step chosen from the
requested look-back window, as the nested `if` in `app.py`. -/
def queryStep (hours : ℤ) : String :=
  if hours ≤ 6 then "1m"
  else if hours ≤ 24 then "5m"
  else if hours ≤ 168 then "15m"
  else "1h"

/-- The ranged-query request issued by `query_victoria`. -/
structure VMRequest where
  query : String
  start : String
  step : String
deriving DecidableEq

/-- Request construction in `query_victoria`: metric, relative start, step. -/
def queryRequest (metric : String) (hours : ℤ) : VMRequest :=
  ⟨metric, "-" ++ toString hours ++ "h", queryStep hours⟩

/-- Outcome of the store call as observed by `query_victoria`.  `error`
covers a network failure, a timeout, or a body that fails to parse as the
expected JSON shape (all of which raise and are caught); `ok status result`
is a parsed body with its `status` string and list of result series, each
series being its `values` list of (epoch-second, float) pairs. -/
inductive VMResponse where
  | error : VMResponse
  | ok (status : String) (result : List (List (ℤ × ℚ))) : VMResponse
deriving DecidableEq

/-- Return value of `query_victoria`: parallel lists of formatted timestamps
and float values. -/
structure QueryResult where
  timestamps : List String
  values : List ℚ
deriving DecidableEq

/-- The `{"timestamps": [], "values": []}` value returned on error, on a
non-success status, and on an empty result set. -/
def emptyResult : QueryResult := ⟨[], []⟩

/-- Result handling of `query_victoria`: on a successful status with a
non-empty result list, take the first series and map its points into the two
parallel lists; otherwise return the empty result.  `fmtTs` is the
`datetime.fromtimestamp(...).strftime(...)` timestamp formatter. -/
def query_victoria (fmtTs : ℤ → String) (resp : VMResponse) : QueryResult :=
  match resp with
  | .error => emptyResult
  | .ok status result =>
    if status = "success" then
      match result with
      | [] => emptyResult
      | series :: _ => ⟨series.map (fun v => fmtTs v.1), series.map (fun v => v.2)⟩
    else emptyResult

/-! ## Bulk export (`get_all_readings_from_vm` in `app.py`) -/

/-- `VM_METRICS` from `app.py`: column name and store metric name. -/
def VM_METRICS : List (String × String) :=
  [("temperature", "aquarium_temperature_celsius"),
   ("ph", "aquarium_ph"),
   ("tds", "aquarium_tds_ppm"),
   ("ec", "aquarium_ec_uscm"),
   ("salinity", "aquarium_salinity_ppm"),
   ("sg", "aquarium_specific_gravity"),
   ("orp", "aquarium_orp_mv")]

/-- `hours = 30 * 24` of the bulk export. -/
def BULK_HOURS : ℕ := 30 * 24

/-- `step = "5m"` of the bulk export. -/
def BULK_STEP : String := "5m"

/-- The columns accumulated in `all_data`: for each catalog metric, in
catalog order, its value column when its query returned a non-empty first
series.  `resp m` is the first series returned for metric `m` (empty list
when the query failed or returned no data). -/
def bulkColumns (resp : String → List (ℤ × ℚ)) : List (String × List ℚ) :=
  VM_METRICS.filterMap (fun cm =>
    if (resp cm.2).isEmpty then none else some (cm.1, (resp cm.2).map Prod.snd))

/-- The `timestamps` variable: the timestamp column of the first metric, in
catalog order, whose query returned data; `none` when no metric did. -/
def bulkTimestamps (resp : String → List (ℤ × ℚ)) : Option (List ℤ) :=
  (VM_METRICS.filterMap (fun cm =>
    if (resp cm.2).isEmpty then none else some ((resp cm.2).map Prod.fst))).head?

/-- The assembled export table: a timestamp column plus named value columns. -/
structure BulkTable where
  timestamps : List ℤ
  columns : List (String × List ℚ)
deriving DecidableEq

/-- The empty `pd.DataFrame()` returned when there is no data or when table
assembly raises. -/
def emptyTable : BulkTable := ⟨[], []⟩

/-- `get_all_readings_from_vm`: assemble the table from the per-metric
columns.  `pd.DataFrame(all_data)` raises `ValueError` when the columns have
unequal lengths, and `df.insert` raises when the timestamp column's length
differs from the frame's; both are caught by the enclosing `except`, which
returns the empty frame. -/
def get_all_readings_from_vm (resp : String → List (ℤ × ℚ)) : BulkTable :=
  match bulkTimestamps resp with
  | none => emptyTable
  | some ts =>
    if (bulkColumns resp).all (fun c => c.2.length == ts.length) then
      ⟨ts, bulkColumns resp⟩
    else emptyTable

/-! ## Range inference (`api_ranges` in `app.py`) -/

/-- One safe-range band, as placed in the `ranges` dict by `api_ranges`.
Static preset bands have `dynamic = false` and no recorded mean. -/
structure RangeBand where
  min : ℚ
  max : ℚ
  ideal_min : ℚ
  ideal_max : ℚ
  unit : String
  dynamic : Bool
  mean : Option ℚ
deriving DecidableEq

/-- The `ranges` dict: association list from parameter name to its band,
looked up first-match-first (later dynamic insertions shadow the preset). -/
abbrev Ranges := List (String × RangeBand)

/-- `sum(values) / len(values)` over the 7-day sample list. -/
def listMean (l : List ℚ) : ℚ := l.sum / l.length

/-- The dynamic pH band from `api_ranges`: absolute limits 6.5 and 8.5,
ideal bounds `mean ± 0.5` clamped into them, reported mean rounded to two
decimal places. -/
def phBand (m : ℚ) : RangeBand :=
  ⟨6.5, 8.5, Max.max 6.5 (m - 0.5), Min.min 8.5 (m + 0.5), "", true,
    some ((pyround (100 * m) : ℚ) / 100)⟩

/-- The dynamic EC band: absolute `[50%, 150%]` of the mean with floor 0,
ideal `±20%`, reported mean rounded to an integer. -/
def ecBand (m : ℚ) : RangeBand :=
  ⟨Max.max 0 (m * 0.5), m * 1.5, m * 0.8, m * 1.2, "uS/cm", true,
    some (pyround m : ℚ)⟩

/-- The dynamic TDS band, same shape as EC. -/
def tdsBand (m : ℚ) : RangeBand :=
  ⟨Max.max 0 (m * 0.5), m * 1.5, m * 0.8, m * 1.2, "ppm", true,
    some (pyround m : ℚ)⟩

/-- The dynamic salinity band, same shape as EC. -/
def salinityBand (m : ℚ) : RangeBand :=
  ⟨Max.max 0 (m * 0.5), m * 1.5, m * 0.8, m * 1.2, "ppm", true,
    some (pyround m : ℚ)⟩

/-- The dynamic ORP band: absolute `[70%, 130%]` of the mean with floor 0,
ideal `±15%`, reported mean rounded to an integer. -/
def orpBand (m : ℚ) : RangeBand :=
  ⟨Max.max 0 (m * 0.7), m * 1.3, m * 0.85, m * 1.15, "mV", true,
    some (pyround m : ℚ)⟩

/-- One `if <param>_data["values"]: ... ranges[<param>] = {...}` block of
`api_ranges`: when the 7-day sample list is non-empty, insert the dynamic
band built from its mean, otherwise leave the dict unchanged.  (The inner
`[v for v in values if v is not None]` filter is the identity here because
`query_victoria` only ever returns floats.) -/
def updateParam (key : String) (mk : ℚ → RangeBand) (vals : List ℚ)
    (ranges : Ranges) : Ranges :=
  if vals.isEmpty then ranges else (key, mk (listMean vals)) :: ranges

/-- The dynamic-range computation of `api_ranges`, applied to a copy of the
preset's static ranges: the five parameter blocks in source order, with the
7-day sample lists `sp se st ss so` for pH, EC, TDS, salinity and ORP. -/
def inferRanges (preset : Ranges) (sp se st ss so : List ℚ) : Ranges :=
  updateParam ("orp") orpBand so
    (updateParam ("salinity") salinityBand ss
      (updateParam ("tds") tdsBand st
        (updateParam ("ec") ecBand se
          (updateParam ("ph") phBand sp preset))))

/-- One tank preset from `tank_presets.json`, as read by `api_ranges`. -/
structure Preset where
  name : String
  description : String
  ranges : Ranges
deriving DecidableEq

/-- The JSON body returned by `api_ranges` on success. -/
structure RangesResponse where
  tank_type : String
  name : String
  ranges : Ranges
deriving DecidableEq

/-- `ranges = dict(preset["ranges"])`: a fresh shallow copy, so insertions
into it leave the preset catalog untouched. -/
def dictCopy (r : Ranges) : Ranges := r

/-- The `api_ranges` handler: look up the tank type (404/`none` when
unknown), copy the preset's static ranges, apply the dynamic computation and
return the response together with the (unchanged) preset catalog. -/
def api_ranges (presets : List (String × Preset)) (tank_type : String)
    (sp se st ss so : List ℚ) : Option RangesResponse × List (String × Preset) :=
  match presets.lookup tank_type with
  | none => (none, presets)
  | some preset =>
    (some ⟨tank_type, preset.name, inferRanges (dictCopy preset.ranges) sp se st ss so⟩,
      presets)

/-! ## Helper lemmas -/

theorem lookup_updateParam (key p : String) (mk : ℚ → RangeBand) (vals : List ℚ)
    (ranges : Ranges) :
    (updateParam key mk vals ranges).lookup p =
      if p = key ∧ vals ≠ [] then some (mk (listMean vals)) else ranges.lookup p := by
  unfold updateParam
  rcases vals with _ | ⟨v, vs⟩
  · simp
  · by_cases hp : p = key
    · subst hp
      simp [List.lookup_cons]
    · have hpb : (p == key) = false := beq_eq_false_iff_ne.mpr hp
      simp [List.lookup_cons, hpb, hp]

theorem metric_mem_of_mem_encode (dps : String → Option ℤ) (ts : ℕ)
    (l : List (String × String × ℚ)) (x : ExpoLine)
    (hx : x ∈ l.filterMap (expoOf dps ts)) : x.metric ∈ l.map (fun e => e.2.1) := by
  induction l with
  | nil => simp at hx
  | cons a l ih =>
    cases hd : dps a.1 with
    | none =>
      rw [List.filterMap_cons_none (by simp [expoOf, hd])] at hx
      exact List.mem_cons_of_mem _ (ih hx)
    | some r =>
      rw [List.filterMap_cons_some
        (show expoOf dps ts a = some ⟨a.2.1, (r : ℚ) * a.2.2, ts⟩ by
          simp [expoOf, hd])] at hx
      rcases List.mem_cons.mp hx with rfl | hx'
      · exact List.mem_cons_self _ _
      · exact List.mem_cons_of_mem _ (ih hx')

theorem count_one_of_mem_encode (dps : String → Option ℤ) (ts : ℕ)
    (l : List (String × String × ℚ)) (id name : String) (scale : ℚ) (raw : ℤ)
    (hnd : (l.map (fun e => e.2.1)).Nodup)
    (hmem : (id, name, scale) ∈ l) (hraw : dps id = some raw) :
    (l.filterMap (expoOf dps ts)).count ⟨name, (raw : ℚ) * scale, ts⟩ = 1 := by
  revert hnd hmem
  induction l with
  | nil =>
    intro hnd hmem
    simp at hmem
  | cons a l ih =>
    intro hnd hmem
    rw [List.map_cons, List.nodup_cons] at hnd
    rcases List.mem_cons.mp hmem with heq | hmem'
    · obtain ⟨aid, aname, ascale⟩ := a
      cases heq
      rw [List.filterMap_cons_some
        (show expoOf dps ts (id, name, scale) = some ⟨name, (raw : ℚ) * scale, ts⟩ by
          simp [expoOf, hraw])]
      rw [List.count_cons_self]
      have hz : (l.filterMap (expoOf dps ts)).count ⟨name, (raw : ℚ) * scale, ts⟩ = 0 := by
        refine List.count_eq_zero.mpr (fun hmm => ?_)
        exact hnd.1 (metric_mem_of_mem_encode dps ts l _ hmm)
      rw [hz]
    · have hname : name ∈ l.map (fun e => e.2.1) :=
        List.mem_map.mpr ⟨(id, name, scale), hmem', rfl⟩
      cases hd : dps a.1 with
      | none =>
        rw [List.filterMap_cons_none (by simp [expoOf, hd])]
        exact ih hnd.2 hmem'
      | some r =>
        rw [List.filterMap_cons_some
          (show expoOf dps ts a = some ⟨a.2.1, (r : ℚ) * a.2.2, ts⟩ by
            simp [expoOf, hd])]
        have hne : (⟨name, (raw : ℚ) * scale, ts⟩ : ExpoLine) ≠ ⟨a.2.1, (r : ℚ) * a.2.2, ts⟩ := by
          intro hc
          have hmetr : name = a.2.1 := congrArg ExpoLine.metric hc
          exact hnd.1 (by rw [← hmetr]; exact hname)
        rw [List.count_cons_of_ne hne]
        exact ih hnd.2 hmem'

theorem phBand_invariant (m : ℚ) (h1 : 6.5 ≤ m) (h2 : m ≤ 8.5) :
    ∃ mv, (phBand m).mean = some mv ∧ (phBand m).min ≤ (phBand m).ideal_min ∧
      (phBand m).ideal_min ≤ mv ∧ mv ≤ (phBand m).ideal_max ∧
      (phBand m).ideal_max ≤ (phBand m).max := by
  have hg := pyround_ge (100 * m)
  have hl := pyround_le (100 * m)
  have hlo : (650 : ℤ) ≤ pyround (100 * m) :=
    le_pyround_of_le 650 (100 * m) (by push_cast; linarith)
  have hhi : pyround (100 * m) ≤ (850 : ℤ) :=
    pyround_le_of_le 850 (100 * m) (by push_cast; linarith)
  have hlo' : (650 : ℚ) ≤ (pyround (100 * m) : ℚ) := by exact_mod_cast hlo
  have hhi' : (pyround (100 * m) : ℚ) ≤ 850 := by exact_mod_cast hhi
  refine ⟨(pyround (100 * m) : ℚ) / 100, rfl, ?_, ?_, ?_, ?_⟩ <;> simp only [phBand]
  · exact le_max_left _ _
  · exact max_le (by linarith) (by linarith)
  · exact le_min (by linarith) (by linarith)
  · exact min_le_left _ _

theorem ecBand_invariant (m : ℚ) (h : 5/2 ≤ m) :
    ∃ mv, (ecBand m).mean = some mv ∧ (ecBand m).min ≤ (ecBand m).ideal_min ∧
      (ecBand m).ideal_min ≤ mv ∧ mv ≤ (ecBand m).ideal_max ∧
      (ecBand m).ideal_max ≤ (ecBand m).max := by
  have hg := pyround_ge m
  have hl := pyround_le m
  refine ⟨(pyround m : ℚ), rfl, ?_, ?_, ?_, ?_⟩ <;> simp only [ecBand]
  · exact max_le (by linarith) (by linarith)
  · linarith
  · linarith
  · linarith

theorem tdsBand_invariant (m : ℚ) (h : 5/2 ≤ m) :
    ∃ mv, (tdsBand m).mean = some mv ∧ (tdsBand m).min ≤ (tdsBand m).ideal_min ∧
      (tdsBand m).ideal_min ≤ mv ∧ mv ≤ (tdsBand m).ideal_max ∧
      (tdsBand m).ideal_max ≤ (tdsBand m).max := by
  have hg := pyround_ge m
  have hl := pyround_le m
  refine ⟨(pyround m : ℚ), rfl, ?_, ?_, ?_, ?_⟩ <;> simp only [tdsBand]
  · exact max_le (by linarith) (by linarith)
  · linarith
  · linarith
  · linarith

theorem salinityBand_invariant (m : ℚ) (h : 5/2 ≤ m) :
    ∃ mv, (salinityBand m).mean = some mv ∧
      (salinityBand m).min ≤ (salinityBand m).ideal_min ∧
      (salinityBand m).ideal_min ≤ mv ∧ mv ≤ (salinityBand m).ideal_max ∧
      (salinityBand m).ideal_max ≤ (salinityBand m).max := by
  have hg := pyround_ge m
  have hl := pyround_le m
  refine ⟨(pyround m : ℚ), rfl, ?_, ?_, ?_, ?_⟩ <;> simp only [salinityBand]
  · exact max_le (by linarith) (by linarith)
  · linarith
  · linarith
  · linarith

theorem orpBand_invariant (m : ℚ) (h : 10/3 ≤ m) :
    ∃ mv, (orpBand m).mean = some mv ∧ (orpBand m).min ≤ (orpBand m).ideal_min ∧
      (orpBand m).ideal_min ≤ mv ∧ mv ≤ (orpBand m).ideal_max ∧
      (orpBand m).ideal_max ≤ (orpBand m).max := by
  have hg := pyround_ge m
  have hl := pyround_le m
  refine ⟨(pyround m : ℚ), rfl, ?_, ?_, ?_, ?_⟩ <;> simp only [orpBand]
  · exact max_le (by linarith) (by linarith)
  · linarith
  · linarith
  · linarith

/-- A concrete one-parameter static preset used as a witness environment. -/
def staticTempBand : RangeBand := ⟨5, 30, 10, 25, "C", false, none⟩

/-- A concrete preset ranges dict with a single static band. -/
def presetRangesEx : Ranges := [("temperature", staticTempBand)]

theorem presetRangesEx_static (p : String) (b : RangeBand)
    (hb : presetRangesEx.lookup p = some b) : b.dynamic = false := by
  by_cases hp : p = "temperature"
  · subst hp
    simp only [presetRangesEx, List.lookup_cons_self, Option.some.injEq] at hb
    rw [← hb]
    rfl
  · have hpb : (p == "temperature") = false := beq_eq_false_iff_ne.mpr hp
    simp [presetRangesEx, List.lookup_cons, hpb] at hb

/-! ## Claims -/

/-- C1 (counterexample): with a 7-day ORP sample list whose mean is -100
(ORP in mV can be negative), the dynamic ORP band returned by the ranges
operation has `dynamic = true`, reported mean -100, but violates both
`ideal_min ≤ mean` (ideal_min is -85) and `min ≤ ideal_min` (min is 0), so
the claimed invariant does not hold for every possible sample mean. -/
theorem api_ranges_band_invariant_counterexample :
    (inferRanges presetRangesEx [] [] [] [] [-100]).lookup ("orp") =
      some (orpBand (listMean [-100])) ∧
    (orpBand (listMean [-100])).dynamic = true ∧
    (orpBand (listMean [-100])).mean = some (-100) ∧
    ¬ ((orpBand (listMean [-100])).ideal_min ≤ -100) ∧
    ¬ ((orpBand (listMean [-100])).min ≤ (orpBand (listMean [-100])).ideal_min) := by
  refine ⟨?_, rfl, ?_, ?_, ?_⟩
  · simp +decide [inferRanges, lookup_updateParam]
  · simp only [orpBand]
    norm_num [listMean, pyround]
  · simp only [orpBand]
    norm_num [listMean]
  · simp only [orpBand]
    norm_num [listMean]

/-- C1 (amended): every band returned by the ranges computation with
`dynamic = true` satisfies `min ≤ ideal_min ≤ mean ≤ ideal_max ≤ max`,
provided the parameter's 7-day sample mean `m` lies in the range where the
rule is monotone: `6.5 ≤ m ≤ 8.5` for pH, `m ≥ 5/2` for EC, TDS and
salinity, and `m ≥ 10/3` for ORP.  (For negative means the percentage bands
flip sign, and for small positive means the integer rounding of the
reported mean escapes the ±20 % / ±15 % ideal window, so the original
unconditional claim is false — see the counterexample.) -/
theorem api_ranges_band_invariant (preset : Ranges) (sp se st ss so : List ℚ)
    (hstatic : ∀ p b, preset.lookup p = some b → b.dynamic = false)
    (hph : sp ≠ [] → 6.5 ≤ listMean sp ∧ listMean sp ≤ 8.5)
    (hec : se ≠ [] → 5/2 ≤ listMean se)
    (htds : st ≠ [] → 5/2 ≤ listMean st)
    (hsal : ss ≠ [] → 5/2 ≤ listMean ss)
    (horp : so ≠ [] → 10/3 ≤ listMean so)
    (p : String) (b : RangeBand)
    (hb : (inferRanges preset sp se st ss so).lookup p = some b)
    (hdyn : b.dynamic = true) :
    ∃ mv, b.mean = some mv ∧ b.min ≤ b.ideal_min ∧ b.ideal_min ≤ mv ∧
      mv ≤ b.ideal_max ∧ b.ideal_max ≤ b.max := by
  simp only [inferRanges, lookup_updateParam] at hb
  split_ifs at hb with h1 h2 h3 h4 h5
  · injection hb with hb
    subst hb
    exact orpBand_invariant _ (horp h1.2)
  · injection hb with hb
    subst hb
    exact salinityBand_invariant _ (hsal h2.2)
  · injection hb with hb
    subst hb
    exact tdsBand_invariant _ (htds h3.2)
  · injection hb with hb
    subst hb
    exact ecBand_invariant _ (hec h4.2)
  · injection hb with hb
    subst hb
    exact phBand_invariant _ (hph h5.2).1 (hph h5.2).2
  · rw [hstatic p b hb] at hdyn
    cases hdyn

/-- C1 (witness): the amended invariant instantiated on a pH sample list
`[7]`: the dynamic pH band built from mean 7 satisfies the full chain. -/
theorem api_ranges_band_invariant_witness :
    ∃ mv, (phBand (listMean [7])).mean = some mv ∧
      (phBand (listMean [7])).min ≤ (phBand (listMean [7])).ideal_min ∧
      (phBand (listMean [7])).ideal_min ≤ mv ∧
      mv ≤ (phBand (listMean [7])).ideal_max ∧
      (phBand (listMean [7])).ideal_max ≤ (phBand (listMean [7])).max :=
  api_ranges_band_invariant presetRangesEx [7] [] [] [] []
    presetRangesEx_static
    (fun _ => ⟨by norm_num [listMean], by norm_num [listMean]⟩)
    (fun h => absurd rfl h) (fun h => absurd rfl h) (fun h => absurd rfl h)
    (fun h => absurd rfl h)
    ("ph") (phBand (listMean [7]))
    (by simp +decide [inferRanges, lookup_updateParam])
    rfl

/-- C2: the scale-and-encode step of `write_to_victoria` emits, for every
catalog entry whose channel id is present in the reading, exactly one line
carrying the raw value times the channel's scale factor; the emitted lines
depend only on the catalog channels (so non-catalog channels contribute
nothing and cause no error); and the string payload is exactly the
`metric_name{sensor="seafront_8in1"} <value> <timestamp_ms>` rendering of
those lines. -/
theorem write_scale_encode (dps : String → Option ℤ) (ts : ℕ) :
    (∀ id name scale, (id, name, scale) ∈ DPS_MAP → ∀ raw : ℤ, dps id = some raw →
      (writeLines dps ts).count ⟨name, (raw : ℚ) * scale, ts⟩ = 1) ∧
    (∀ dps2 : String → Option ℤ, (∀ e ∈ DPS_MAP, dps2 e.1 = dps e.1) →
      writeLines dps2 ts = writeLines dps ts) ∧
    (∀ fmtValue, writePayloadLines fmtValue dps ts =
      (writeLines dps ts).map (renderLine fmtValue)) := by
  refine ⟨?_, ?_, fun _ => rfl⟩
  · intro id name scale hmem raw hraw
    exact count_one_of_mem_encode dps ts DPS_MAP id name scale raw (by decide) hmem hraw
  · intro dps2 h
    simp only [writeLines]
    exact List.filterMap_congr (fun e he => by simp only [expoOf]; rw [h e he])

/-- A raw reading with only the pH channel present (scenario A of the spec:
raw 723 on channel 106). -/
def dpsScenarioA : String → Option ℤ := fun id => if id = "106" then some 723 else none

/-- C2 (witness): at the concrete reading with channel 106 = 723, exactly
one `aquarium_ph` line with value 723 × 0.01 is emitted. -/
theorem write_scale_encode_witness :
    (writeLines dpsScenarioA 0).count ⟨"aquarium_ph", (723 : ℚ) * 0.01, 0⟩ = 1 :=
  (write_scale_encode dpsScenarioA 0).1 ("106") ("aquarium_ph") 0.01
    (by simp [DPS_MAP]) 723 rfl

/-- C3: the history range query's step selection, for every window of at
least one hour: 1 minute up to 6 hours, 5 minutes up to 24, 15 minutes up
to 168 (7 days), and 1 hour beyond. -/
theorem queryStep_table (hours : ℤ) (h : 1 ≤ hours) :
    (hours ≤ 6 → queryStep hours = "1m") ∧
    (6 < hours → hours ≤ 24 → queryStep hours = "5m") ∧
    (24 < hours → hours ≤ 168 → queryStep hours = "15m") ∧
    (168 < hours → queryStep hours = "1h") := by
  refine ⟨fun h6 => ?_, fun h6 h24 => ?_, fun h24 h168 => ?_, fun h168 => ?_⟩
  · simp only [queryStep, if_pos h6]
  · simp only [queryStep]
    rw [if_neg (by omega), if_pos h24]
  · simp only [queryStep]
    rw [if_neg (by omega), if_neg (by omega), if_pos h168]
  · simp only [queryStep]
    rw [if_neg (by omega), if_neg (by omega), if_neg (by omega)]

/-- C3 (witness): the step selection at the spec's sample points 1, 7, 100
and 720 hours. -/
theorem queryStep_table_witness :
    queryStep 1 = "1m" ∧ queryStep 7 = "5m" ∧ queryStep 100 = "15m" ∧
      queryStep 720 = "1h" :=
  ⟨(queryStep_table 1 (by decide)).1 (by decide),
   (queryStep_table 7 (by decide)).2.1 (by decide) (by decide),
   (queryStep_table 100 (by decide)).2.2.1 (by decide) (by decide),
   (queryStep_table 720 (by decide)).2.2.2 (by decide)⟩

/-- C4: whenever the store call fails (network error, malformed body — the
`error` response), the parsed status is not `"success"`, or the result set
is empty, `query_victoria` returns the empty result; being a total
function of the response, it never raises to its caller. -/
theorem query_failure_empty (fmtTs : ℤ → String) (resp : VMResponse)
    (h : resp = VMResponse.error ∨
      ∀ status result, resp = VMResponse.ok status result →
        status ≠ "success" ∨ result = []) :
    query_victoria fmtTs resp = emptyResult := by
  rcases h with rfl | h
  · rfl
  · cases resp with
    | error => rfl
    | ok status result =>
      rcases h status result rfl with hs | hr
      · simp [query_victoria, hs]
      · subst hr
        by_cases hs2 : status = "success"
        · simp [query_victoria, hs2]
        · simp [query_victoria, hs2]

/-- C4 (witness): scenario D of the spec — a successful status with an
empty result list yields the empty sequence, not an error. -/
theorem query_failure_empty_witness :
    query_victoria (fun _ => "") (VMResponse.ok ("success") []) = emptyResult :=
  query_failure_empty (fun _ => "") (VMResponse.ok ("success") [])
    (Or.inr (by
      intro s r hsr
      injection hsr with h1 h2
      subst h2
      exact Or.inr rfl))

/-- C5: per-parameter fallback of the ranges computation.  When a
parameter's 7-day sample list is empty, its entry in the returned dict is
exactly the preset's static entry (and hence stays non-dynamic, given that
the static preset bands carry `dynamic = false`); parameters with a
non-empty sample list still get their dynamic band.  No error is surfaced:
the computation is total. -/
theorem static_band_fallback (preset : Ranges) (sp se st ss so : List ℚ)
    (hstatic : ∀ p b, preset.lookup p = some b → b.dynamic = false) :
    (sp = [] → (inferRanges preset sp se st ss so).lookup ("ph") = preset.lookup ("ph") ∧
      ∀ b, (inferRanges preset sp se st ss so).lookup ("ph") = some b → b.dynamic = false) ∧
    (se = [] → (inferRanges preset sp se st ss so).lookup ("ec") = preset.lookup ("ec") ∧
      ∀ b, (inferRanges preset sp se st ss so).lookup ("ec") = some b → b.dynamic = false) ∧
    (st = [] → (inferRanges preset sp se st ss so).lookup ("tds") = preset.lookup ("tds") ∧
      ∀ b, (inferRanges preset sp se st ss so).lookup ("tds") = some b → b.dynamic = false) ∧
    (ss = [] → (inferRanges preset sp se st ss so).lookup ("salinity") = preset.lookup ("salinity") ∧
      ∀ b, (inferRanges preset sp se st ss so).lookup ("salinity") = some b → b.dynamic = false) ∧
    (so = [] → (inferRanges preset sp se st ss so).lookup ("orp") = preset.lookup ("orp") ∧
      ∀ b, (inferRanges preset sp se st ss so).lookup ("orp") = some b → b.dynamic = false) ∧
    (sp ≠ [] → (inferRanges preset sp se st ss so).lookup ("ph") = some (phBand (listMean sp))) ∧
    (se ≠ [] → (inferRanges preset sp se st ss so).lookup ("ec") = some (ecBand (listMean se))) ∧
    (st ≠ [] → (inferRanges preset sp se st ss so).lookup ("tds") = some (tdsBand (listMean st))) ∧
    (ss ≠ [] → (inferRanges preset sp se st ss so).lookup ("salinity") = some (salinityBand (listMean ss))) ∧
    (so ≠ [] → (inferRanges preset sp se st ss so).lookup ("orp") = some (orpBand (listMean so))) := by
  refine ⟨fun h => ⟨?_, ?_⟩, fun h => ⟨?_, ?_⟩, fun h => ⟨?_, ?_⟩, fun h => ⟨?_, ?_⟩,
    fun h => ⟨?_, ?_⟩, fun h => ?_, fun h => ?_, fun h => ?_, fun h => ?_, fun h => ?_⟩
  · simp +decide [inferRanges, lookup_updateParam, h]
  · intro b hb
    simp +decide [inferRanges, lookup_updateParam, h] at hb
    exact hstatic _ b hb
  · simp +decide [inferRanges, lookup_updateParam, h]
  · intro b hb
    simp +decide [inferRanges, lookup_updateParam, h] at hb
    exact hstatic _ b hb
  · simp +decide [inferRanges, lookup_updateParam, h]
  · intro b hb
    simp +decide [inferRanges, lookup_updateParam, h] at hb
    exact hstatic _ b hb
  · simp +decide [inferRanges, lookup_updateParam, h]
  · intro b hb
    simp +decide [inferRanges, lookup_updateParam, h] at hb
    exact hstatic _ b hb
  · simp +decide [inferRanges, lookup_updateParam, h]
  · intro b hb
    simp +decide [inferRanges, lookup_updateParam, h] at hb
    exact hstatic _ b hb
  · simp +decide [inferRanges, lookup_updateParam, h]
  · simp +decide [inferRanges, lookup_updateParam, h]
  · simp +decide [inferRanges, lookup_updateParam, h]
  · simp +decide [inferRanges, lookup_updateParam, h]
  · simp +decide [inferRanges, lookup_updateParam, h]

/-- C5 (witness): with an empty pH sample list and EC samples `[3, 5]`, the
pH entry is the preset's static entry while the EC band is still computed. -/
theorem static_band_fallback_witness :
    (inferRanges presetRangesEx [] [3, 5] [] [] []).lookup ("ph") =
      presetRangesEx.lookup ("ph") ∧
    (inferRanges presetRangesEx [] [3, 5] [] [] []).lookup ("ec") =
      some (ecBand (listMean [3, 5])) :=
  ⟨((static_band_fallback presetRangesEx [] [3, 5] [] [] [] presetRangesEx_static).1 rfl).1,
   (static_band_fallback presetRangesEx [] [3, 5] [] [] []
      presetRangesEx_static).2.2.2.2.2.2.1 (by simp)⟩

/-- C6 (counterexample): with every cycle taking 10 seconds, the separation
between the first two cycle starts is 310 seconds, not the fixed interval:
the loop sleeps the full interval after each cycle ends, so latency is
added on top of the interval rather than absorbed. -/
theorem collection_loop_counterexample :
    cycleStart (fun _ => 10) 1 - cycleStart (fun _ => 10) 0 ≠ INTERVAL := by
  decide

/-- C6 (amended): consecutive cycle starts of the collection loop are
separated by the previous cycle's duration plus the fixed 300-second sleep
(the interval is measured from the end of the previous cycle, so read/write
latency accumulates as drift); the separation is always at least the
interval, and no negative sleep can arise since the sleep duration is the
constant `INTERVAL`. -/
theorem collection_loop_spacing (dur : ℕ → ℕ) (n : ℕ) :
    cycleStart dur (n + 1) - cycleStart dur n = dur n + INTERVAL ∧
    INTERVAL ≤ cycleStart dur (n + 1) - cycleStart dur n := by
  simp only [cycleStart, INTERVAL]
  omega

/-- A bulk-export store response where temperature has two points but pH
only one: the per-metric columns are misaligned. -/
def bulkRespMisaligned : String → List (ℤ × ℚ) := fun m =>
  if m = "aquarium_temperature_celsius" then [(0, 20), (300, 21)]
  else if m = "aquarium_ph" then [(0, 7)] else []

/-- C7 (counterexample): on misaligned columns (temperature 2 points, pH 1
point) the export returns the empty table — `pd.DataFrame` raises on
unequal column lengths and the handler catches it — rather than a table
truncated to the shortest common length. -/
theorem bulk_export_counterexample :
    get_all_readings_from_vm bulkRespMisaligned = emptyTable ∧
    (bulkColumns bulkRespMisaligned).map (fun c => (c.1, c.2.length)) =
      [("temperature", 2), ("ph", 1)] ∧
    bulkTimestamps bulkRespMisaligned = some [0, 300] := by
  refine ⟨rfl, rfl, rfl⟩

/-- C7 (amended): the bulk export queries 30 days (720 hours) at a fixed
5-minute step; the timestamp column is that of the first catalog metric
that returned data; when every returned column has the same length as that
reference column the table is assembled from them, and otherwise (fewer or
misaligned points) the export returns the empty table, not a truncated
one. -/
theorem bulk_export_assembly (resp : String → List (ℤ × ℚ)) (ts : List ℤ)
    (hts : bulkTimestamps resp = some ts) :
    BULK_HOURS = 720 ∧ BULK_STEP = "5m" ∧
    (((bulkColumns resp).all (fun c => c.2.length == ts.length)) = true →
      get_all_readings_from_vm resp = ⟨ts, bulkColumns resp⟩) ∧
    (((bulkColumns resp).all (fun c => c.2.length == ts.length)) = false →
      get_all_readings_from_vm resp = emptyTable) := by
  refine ⟨rfl, rfl, fun hall => ?_, fun hall => ?_⟩ <;>
    simp [get_all_readings_from_vm, hts, hall]

/-- A bulk-export store response with a single metric (pH) holding two
aligned points. -/
def bulkRespAligned : String → List (ℤ × ℚ) := fun m =>
  if m = "aquarium_ph" then [(0, 7), (300, 7)] else []

/-- C7 (witness): on an aligned response the table is assembled with the
first returning metric's timestamps. -/
theorem bulk_export_assembly_witness :
    get_all_readings_from_vm bulkRespAligned =
      ⟨[0, 300], bulkColumns bulkRespAligned⟩ :=
  (bulk_export_assembly bulkRespAligned [0, 300] rfl).2.2.1 rfl

/-- C8: the ranges computation is a pure function of the preset catalog and
the per-parameter sample lists: two invocations on identical inputs return
identical results, both for the core inference and for the full handler. -/
theorem infer_ranges_deterministic (preset : Ranges) (sp se st ss so : List ℚ)
    (presets : List (String × Preset)) (tank_type : String) :
    inferRanges preset sp se st ss so = inferRanges preset sp se st ss so ∧
    api_ranges presets tank_type sp se st ss so =
      api_ranges presets tank_type sp se st ss so :=
  ⟨rfl, rfl⟩

/-- C9: for every store response, well-formed or not, the result of
`query_victoria` has timestamp and value lists of equal length, drawn
pointwise from the same store points of the first result series. -/
theorem query_aligned (fmtTs : ℤ → String) (resp : VMResponse) :
    (query_victoria fmtTs resp).timestamps.length =
      (query_victoria fmtTs resp).values.length ∧
    ∃ pts : List (ℤ × ℚ),
      (query_victoria fmtTs resp).timestamps = pts.map (fun v => fmtTs v.1) ∧
      (query_victoria fmtTs resp).values = pts.map (fun v => v.2) := by
  cases resp with
  | error => exact ⟨rfl, [], rfl, rfl⟩
  | ok status result =>
    by_cases hs : status = "success"
    · cases result with
      | nil =>
        refine ⟨?_, [], ?_, ?_⟩ <;> simp [query_victoria, hs, emptyResult]
      | cons series rest =>
        refine ⟨?_, series, ?_, ?_⟩ <;> simp [query_victoria, hs]
    · refine ⟨?_, [], ?_, ?_⟩ <;> simp [query_victoria, hs, emptyResult]

/-- C10: the ranges handler never mutates the preset catalog: the dynamic
bands are inserted into a fresh copy of the preset's ranges dict, so the
catalog after a request equals the catalog before it, and a second request
on the resulting catalog returns the same response as the first. -/
theorem api_ranges_preserves_presets (presets : List (String × Preset))
    (tank_type : String) (sp se st ss so : List ℚ) :
    (api_ranges presets tank_type sp se st ss so).2 = presets ∧
    (api_ranges ((api_ranges presets tank_type sp se st ss so).2) tank_type
        sp se st ss so).1 =
      (api_ranges presets tank_type sp se st ss so).1 := by
  rcases hl : presets.lookup tank_type with _ | preset <;>
    simp [api_ranges, hl]
